import Mathlib

/-!
Verification of the cruise-control grading system.

This file gives a shallow embedding of the core of the grader:

* `src/analyzer/rigorous_implementation_grader.py` — test-case generation
  (`_generate_test_cases`), harness synthesis (`_generate_test_method`),
  result parsing (`run_tests`), result analysis (`analyze_results`) and the
  grading pipeline (`grade_implementation`, `_error_result`, `compile_code`).
* `src/analyzer/test_analyzer.py` — logic verification of student tests
  (`verify_r5_logic`, `verify_r6_logic`).
* `src/grader/main.py` — the orchestrator grade computation
  (`get_default_config`, `calculate_grade`).

Python string operations are modelled by structurally recursive functions on
the underlying character lists, so every definition evaluates inside the
kernel.  Rational numbers stand in for Python floats; all constants involved
are exact two-digit decimals and no computation in this file lands on a
rounding half-way point, where `float` and `ℚ` could diverge.
-/

/-! ## String helpers (Python / Java string semantics) -/

/-- Split a character list at every occurrence of `sep`; mirrors Python
`str.split(sep)` for a one-character separator (empty chunks preserved). -/
def chSplit (sep : Char) : List Char → List (List Char)
  | [] => [[]]
  | c :: cs =>
    match chSplit sep cs with
    | [] => [[]]
    | g :: gs => if c = sep then [] :: g :: gs else (c :: g) :: gs

/-- Python `s.split(sep)` for a one-character separator. -/
def pySplit (sep : Char) (s : String) : List String :=
  (chSplit sep s.data).map String.mk

/-- Python `s.startswith(p)` / Java `String.startsWith`. -/
def pyStarts (s p : String) : Bool :=
  p.data.isPrefixOf s.data

/-- Occurrence of `pat` as a contiguous run inside `l`. -/
def chHasSub (pat : List Char) : List Char → Bool
  | [] => pat.isEmpty
  | c :: cs => pat.isPrefixOf (c :: cs) || chHasSub pat cs

/-- Python `pat in s` / Java `String.contains`. -/
def pyHasSub (s pat : String) : Bool :=
  chHasSub pat.data s.data

/-- Fuel-driven replace-all on character lists (left-to-right,
non-overlapping), mirroring Python `str.replace`. -/
def chReplace (pat rep : List Char) : Nat → List Char → List Char
  | 0, l => l
  | _ + 1, [] => []
  | fuel + 1, c :: cs =>
    if pat ≠ [] ∧ pat.isPrefixOf (c :: cs) then
      rep ++ chReplace pat rep fuel ((c :: cs).drop pat.length)
    else
      c :: chReplace pat rep fuel cs

/-- Python `s.replace(pat, rep)` (replace all occurrences). -/
def pyReplace (s pat rep : String) : String :=
  String.mk (chReplace pat.data rep.data s.data.length s.data)

/-- Zero-padded rendering of a natural number, mirroring the Python format
specifier `{n:04d}` for a non-negative argument. -/
def pad4 (n : Nat) : String :=
  let s := toString n
  String.mk (List.replicate (4 - s.length) '0') ++ s

/-- Round to the nearest integer, ties to even (the rounding of Python
`round`). -/
def bankerRound (x : ℚ) : ℤ :=
  if x - (⌊x⌋ : ℚ) < 1 / 2 then ⌊x⌋
  else if (1 : ℚ) / 2 < x - (⌊x⌋ : ℚ) then ⌊x⌋ + 1
  else if ⌊x⌋ % 2 = 0 then ⌊x⌋
  else ⌊x⌋ + 1

/-- Python `round(q, 2)` on exact decimals: round to two fractional digits,
ties to even.  No computation in this development hits a tie between two
representable floats, so the exact-decimal model is faithful. -/
def pyRound2 (q : ℚ) : ℚ :=
  ((bankerRound (q * 100) : ℤ) : ℚ) / 100

/-! ## Data model of `rigorous_implementation_grader.py` -/

/-- `TestCategory` enumeration. -/
inductive TestCategory where
  | equivalencePartition
  | boundaryValue
  | stateTransition
  | propertyBased
  | exceptionBehavior
deriving DecidableEq, Repr

/-- `ExpectedBehavior` enumeration. -/
inductive ExpectedBehavior where
  | success
  | exception
  | stateChange
deriving DecidableEq, Repr

/-- `TestCase` dataclass.  The two precondition dictionary entries used by the
generator (`speedLimit`, `speedSet`) and the two input-parameter entries
(`speedSet`, `sequence`) are modelled as optional fields; an absent or `None`
entry is `none`.  The `postconditions` field records the expected `speedSet`
after the call, as the generator fills it. -/
structure TestCase where
  id : String
  category : TestCategory
  requirement : String
  description : String
  preSpeedLimit : Option Int := none
  preSpeedSet : Option Int := none
  inputSpeedSet : Option Int := none
  inputSequence : Option (List Int) := none
  expectedBehavior : ExpectedBehavior
  expectedValue : Option Int := none
  expectedException : Option String := none
  postSpeedSet : Option (Option Int) := none
deriving DecidableEq, Repr

/-! ## Test case generation (`_generate_test_cases`) -/

/-- R1 initialization test case. -/
def tcR1Init : TestCase :=
  { id := "R1_INIT_01"
  , category := .equivalencePartition
  , requirement := "R1"
  , description := "speedSet initializes to null after constructor"
  , expectedBehavior := .success
  , expectedValue := none
  , postSpeedSet := some none }

/-- R2 initialization test case. -/
def tcR2Init : TestCase :=
  { id := "R2_INIT_01"
  , category := .equivalencePartition
  , requirement := "R2"
  , description := "speedLimit initializes to null after constructor"
  , expectedBehavior := .success
  , expectedValue := none }

/-- Representative values of the valid partition for R3. -/
def r3Values : List Int := [1, 50, 100, 1000]

/-- One R3 equivalence-partition test case. -/
def r3Case (v : Int) : TestCase :=
  { id := "R3_VALID_" ++ pad4 v.natAbs
  , category := .equivalencePartition
  , requirement := "R3"
  , description := "setSpeedSet accepts positive value"
  , preSpeedLimit := none
  , inputSpeedSet := some v
  , expectedBehavior := .success
  , expectedValue := some v
  , postSpeedSet := some (some v) }

/-- Boundary and representative values of the invalid partition for R4. -/
def r4Values : List Int := [-100, -10, -1, 0]

/-- One R4 boundary-value test case (id uses `abs(value)` zero-padded). -/
def r4Case (v : Int) : TestCase :=
  { id := "R4_INVALID_" ++ pad4 v.natAbs
  , category := .boundaryValue
  , requirement := "R4"
  , description := "setSpeedSet throws IncorrectSpeedSetException"
  , preSpeedLimit := none
  , inputSpeedSet := some v
  , expectedBehavior := .exception
  , expectedValue := none
  , expectedException := some "IncorrectSpeedSetException"
  , postSpeedSet := some none }

/-- (speedLimit, speedSet) pairs for the valid below-limit partition of R5. -/
def r5Pairs : List (Int × Int) := [(100, 50), (200, 150), (100, 99)]

/-- One R5 below-limit test case. -/
def r5Case (p : Int × Int) : TestCase :=
  { id := "R5_BELOW_LIMIT_" ++ pad4 p.2.natAbs
  , category := .equivalencePartition
  , requirement := "R5"
  , description := "setSpeedSet succeeds below speedLimit"
  , preSpeedLimit := some p.1
  , inputSpeedSet := some p.2
  , expectedBehavior := .success
  , expectedValue := some p.2
  , postSpeedSet := some (some p.2) }

/-- The boundary case speedSet == speedLimit of R5. -/
def tcR5Equal : TestCase :=
  { id := "R5_EQUAL_LIMIT_0100"
  , category := .boundaryValue
  , requirement := "R5"
  , description := "setSpeedSet equals speedLimit (boundary case)"
  , preSpeedLimit := some 100
  , inputSpeedSet := some 100
  , expectedBehavior := .success
  , expectedValue := some 100
  , postSpeedSet := some (some 100) }

/-- (speedLimit, speedSet) pairs for the exceed-limit partition of R6. -/
def r6Pairs : List (Int × Int) := [(100, 101), (100, 150), (50, 51)]

/-- One R6 boundary-value test case. -/
def r6Case (p : Int × Int) : TestCase :=
  { id := "R6_EXCEED_LIMIT_" ++ pad4 p.2.natAbs
  , category := .boundaryValue
  , requirement := "R6"
  , description := "setSpeedSet throws exception above speedLimit"
  , preSpeedLimit := some p.1
  , inputSpeedSet := some p.2
  , expectedBehavior := .exception
  , expectedValue := none
  , expectedException := some "SpeedSetAboveSpeedLimitException"
  , postSpeedSet := some none }

/-- Property-based sequential-calls test case. -/
def tcPropSeq : TestCase :=
  { id := "PROP_SEQUENTIAL_01"
  , category := .propertyBased
  , requirement := "R3,R5"
  , description := "multiple valid setSpeedSet calls maintain state"
  , preSpeedLimit := some 200
  , inputSequence := some [50, 75, 100]
  , expectedBehavior := .success
  , expectedValue := some 100
  , postSpeedSet := some (some 100) }

/-- State-transition test case: state preserved after exception. -/
def tcStateTrans : TestCase :=
  { id := "STATE_TRANS_01"
  , category := .stateTransition
  , requirement := "R4"
  , description := "state preserved after exception"
  , preSpeedLimit := none
  , preSpeedSet := some 50
  , inputSpeedSet := some (-10)
  , expectedBehavior := .exception
  , expectedValue := none
  , expectedException := some "IncorrectSpeedSetException"
  , postSpeedSet := some (some 50) }

/-- The full generated test-case sequence of `_generate_test_cases`, in
emission order. -/
def testCases : List TestCase :=
  [tcR1Init, tcR2Init]
    ++ r3Values.map r3Case
    ++ r4Values.map r4Case
    ++ r5Pairs.map r5Case
    ++ [tcR5Equal]
    ++ r6Pairs.map r6Case
    ++ [tcPropSeq, tcStateTrans]

/-- C4: the generated test cases contain, for requirement R4, a test case
with input exactly `0`, whose identifier differs from the identifier of
every negative-value R4 test case. -/
theorem c4_zero_boundary_own_case :
    ∃ tc ∈ testCases, tc.requirement = "R4" ∧ tc.inputSpeedSet = some 0 ∧
      ∀ tc2 ∈ testCases, tc2.requirement = "R4" →
        ∀ v, tc2.inputSpeedSet = some v → v < 0 → tc2.id ≠ tc.id := by
  refine ⟨r4Case 0, by decide, by decide, by decide, ?_⟩
  decide

/-- C5: the generated R6 test cases include a case whose precondition sets
`speedLimit` to some value `L` and whose operation under test calls
`setSpeedSet` with exactly `L + 1`, expecting the
`SpeedSetAboveSpeedLimitException` kind. -/
theorem c5_boundary_pair_limit_plus_one :
    ∃ tc ∈ testCases, tc.requirement = "R6" ∧
      ∃ l : Int, tc.preSpeedLimit = some l ∧ tc.inputSpeedSet = some (l + 1) ∧
        tc.expectedBehavior = .exception ∧
        tc.expectedException = some "SpeedSetAboveSpeedLimitException" := by
  refine ⟨r6Case (100, 101), by decide, by decide, 100, by decide, by decide,
    by decide, by decide⟩

/-! ## Harness synthesis (`_generate_test_method`)

The Python method renders each `TestCase` into one Java try/catch block.
We model the rendered block as a list of the Java statements it contains plus
the catch handler, and give the block an operational semantics against an
arbitrary subject implementation of the `CruiseControl` API. -/

/-- Boolean conditions appearing in the generated Java `if` statements. -/
inductive JCond where
  /-- `cc.getSpeedSet() == null` (reference comparison, never throws). -/
  | speedSetIsNull
  /-- `cc.getSpeedLimit() == null`. -/
  | speedLimitIsNull
  /-- `cc.getSpeedSet() != null && cc.getSpeedSet() == v` (guarded unboxing). -/
  | speedSetEqGuarded (v : Int)
  /-- `cc.getSpeedSet() == v` (unguarded unboxing: throws
  `NullPointerException` when the field is null). -/
  | speedSetEqUnboxed (v : Int)
deriving DecidableEq, Repr

/-- Java statements emitted by `_generate_test_method` inside the try block
(the `new CruiseControl(...)` construction is the initial state of the run). -/
inductive JStmt where
  | callSetSpeedLimit (v : Int)
  | callSetSpeedSet (v : Int)
  | printLine (s : String)
  | ifPrint (c : JCond) (s : String)
deriving DecidableEq, Repr

/-- The catch handler of the generated block. -/
inductive JHandler where
  /-- Expected-exception case: print `pass` when the simple name of the
  thrown error contains `frag`, else print `failPre ++ name`. -/
  | matchExc (frag : String) (pass : String) (failPre : String)
  /-- Success-expected case: print `failPre ++ name` unconditionally. -/
  | unexpectedExc (failPre : String)
deriving DecidableEq, Repr

/-- `PASS:<requirement>:<id>` line. -/
def passLine (tc : TestCase) : String :=
  "PASS:" ++ tc.requirement ++ ":" ++ tc.id

/-- Setup statements replaying the preconditions: `speedLimit` first, then
`speedSet`, each only when present and not `None`. -/
def setupStmts (tc : TestCase) : List JStmt :=
  (match tc.preSpeedLimit with
   | some v => [JStmt.callSetSpeedLimit v]
   | none => [])
    ++ (match tc.preSpeedSet with
        | some v => [JStmt.callSetSpeedSet v]
        | none => [])

/-- Statements of the branch of `_generate_test_method` selected by the test
case category and expected behavior.  `Option.getD 0` stands for dictionary
entries the Python code reads unconditionally on branches that only run for
test cases carrying them. -/
def mainStmts (tc : TestCase) : List JStmt :=
  if tc.category = .propertyBased ∧ tc.inputSequence.isSome then
    ((tc.inputSequence.getD []).map JStmt.callSetSpeedSet)
      ++ [JStmt.ifPrint (JCond.speedSetEqUnboxed (tc.expectedValue.getD 0)) (passLine tc)]
  else if tc.expectedBehavior = .exception then
    if pyStarts tc.id "R1" || pyStarts tc.id "R2" then
      [JStmt.ifPrint
        (if pyHasSub tc.id "R1" then JCond.speedSetIsNull else JCond.speedLimitIsNull)
        (passLine tc)]
    else
      [JStmt.callSetSpeedSet (tc.inputSpeedSet.getD 0),
       JStmt.printLine ("FAIL:" ++ tc.requirement ++ ":" ++ tc.id ++ ":NO_EXCEPTION")]
  else
    if pyStarts tc.id "R1" || pyStarts tc.id "R2" then
      [JStmt.ifPrint
        (if pyHasSub tc.id "R1" then JCond.speedSetIsNull else JCond.speedLimitIsNull)
        (passLine tc)]
    else
      [JStmt.callSetSpeedSet (tc.inputSpeedSet.getD 0),
       JStmt.ifPrint (JCond.speedSetEqGuarded (tc.expectedValue.getD 0)) (passLine tc)]

/-- All statements of the generated try block, in emission order. -/
def genStmts (tc : TestCase) : List JStmt :=
  setupStmts tc ++ mainStmts tc

/-- The generated catch handler.  For an expected exception the accepted
fragment is `expected_exception.replace("Exception", "")`. -/
def genHandler (tc : TestCase) : JHandler :=
  if tc.expectedBehavior = .exception then
    JHandler.matchExc
      (pyReplace (tc.expectedException.getD "") "Exception" "")
      (passLine tc)
      ("FAIL:" ++ tc.requirement ++ ":" ++ tc.id ++ ":WRONG_EXCEPTION:")
  else
    JHandler.unexpectedExc
      ("FAIL:" ++ tc.requirement ++ ":" ++ tc.id ++ ":UNEXPECTED_EXCEPTION:")

/-- Observable state of a `CruiseControl` object: (speedSet, speedLimit),
`none` for a null Integer field. -/
abbrev CCState := Option Int × Option Int

/-- Outcome of a mutator call on the subject. -/
inductive CallRes where
  | ok (st : CCState)
  | exc (name : String)

/-- A black-box subject implementation: the state after construction and the
behavior of the two mutators (either a new state or a thrown error, recorded
by its simple class name). -/
structure Subject where
  initState : CCState
  setLimit : CCState → Int → CallRes
  setSet : CCState → Int → CallRes

/-- Evaluate a condition: either a boolean or a thrown error name. -/
def evalCond (st : CCState) : JCond → Bool ⊕ String
  | .speedSetIsNull => Sum.inl (st.1 = none)
  | .speedLimitIsNull => Sum.inl (st.2 = none)
  | .speedSetEqGuarded v =>
    match st.1 with
    | some x => Sum.inl (x = v)
    | none => Sum.inl false
  | .speedSetEqUnboxed v =>
    match st.1 with
    | some x => Sum.inl (x = v)
    | none => Sum.inr "NullPointerException"

/-- Execute one statement: emitted lines plus either the next state or a
thrown error name. -/
def execStmt (sub : Subject) (st : CCState) : JStmt → List String × (CCState ⊕ String)
  | .callSetSpeedLimit v =>
    match sub.setLimit st v with
    | .ok st2 => ([], Sum.inl st2)
    | .exc n => ([], Sum.inr n)
  | .callSetSpeedSet v =>
    match sub.setSet st v with
    | .ok st2 => ([], Sum.inl st2)
    | .exc n => ([], Sum.inr n)
  | .printLine s => ([s], Sum.inl st)
  | .ifPrint c s =>
    match evalCond st c with
    | Sum.inl true => ([s], Sum.inl st)
    | Sum.inl false => ([], Sum.inl st)
    | Sum.inr n => ([], Sum.inr n)

/-- Execute a statement list; stops at the first thrown error. -/
def runStmts (sub : Subject) (st : CCState) : List JStmt → List String × (CCState ⊕ String)
  | [] => ([], Sum.inl st)
  | s :: rest =>
    match execStmt sub st s with
    | (ls, Sum.inl st2) =>
      match runStmts sub st2 rest with
      | (ls2, r) => (ls ++ ls2, r)
    | (ls, Sum.inr n) => (ls, Sum.inr n)

/-- The line printed by the catch handler for a thrown error name. -/
def handlerLine (h : JHandler) (name : String) : String :=
  match h with
  | .matchExc frag pass failPre =>
    if pyHasSub name frag then pass else failPre ++ name
  | .unexpectedExc failPre => failPre ++ name

/-- All result lines the generated block for `tc` prints when run against
subject `sub`. -/
def harnessLines (sub : Subject) (tc : TestCase) : List String :=
  match runStmts sub sub.initState (genStmts tc) with
  | (ls, Sum.inl _) => ls
  | (ls, Sum.inr n) => ls ++ [handlerLine (genHandler tc) n]

/-- Statements that print nothing. -/
def isCall : JStmt → Bool
  | .callSetSpeedLimit _ => true
  | .callSetSpeedSet _ => true
  | _ => false

theorem runStmts_append (sub : Subject) (st : CCState) (l1 l2 : List JStmt) :
    runStmts sub st (l1 ++ l2) =
      match runStmts sub st l1 with
      | (ls, Sum.inl st2) =>
        match runStmts sub st2 l2 with
        | (ls2, r) => (ls ++ ls2, r)
      | (ls, Sum.inr n) => (ls, Sum.inr n) := by
  induction l1 generalizing st with
  | nil => simp [runStmts]
  | cons s rest ih =>
    simp only [List.cons_append, runStmts]
    rcases h : execStmt sub st s with ⟨ls, st2 | n⟩
    · simp only [List.append_eq]
      rw [ih st2]
      rcases h2 : runStmts sub st2 rest with ⟨ls2, st3 | n2⟩
      · rcases h3 : runStmts sub st3 l2 with ⟨ls3, r⟩
        simp [List.append_assoc]
      · simp
    · rfl

theorem runStmts_calls_no_lines (sub : Subject) (st : CCState) (l : List JStmt)
    (h : ∀ s ∈ l, isCall s = true) : (runStmts sub st l).1 = [] := by
  induction l generalizing st with
  | nil => simp [runStmts]
  | cons s rest ih =>
    have hs : isCall s = true := h s (List.mem_cons_self s rest)
    have hrest : ∀ x ∈ rest, isCall x = true := fun x hx => h x (List.mem_cons_of_mem s hx)
    cases s with
    | callSetSpeedLimit v =>
      simp only [runStmts, execStmt]
      rcases sub.setLimit st v with st2 | n
      · rcases h2 : runStmts sub st2 rest with ⟨ls2, r⟩
        have := ih st2 hrest
        rw [h2] at this
        simp_all
      · rfl
    | callSetSpeedSet v =>
      simp only [runStmts, execStmt]
      rcases sub.setSet st v with st2 | n
      · rcases h2 : runStmts sub st2 rest with ⟨ls2, r⟩
        have := ih st2 hrest
        rw [h2] at this
        simp_all
      · rfl
    | printLine s => simp [isCall] at hs
    | ifPrint c s => simp [isCall] at hs

theorem setupStmts_calls (tc : TestCase) : ∀ s ∈ setupStmts tc, isCall s = true := by
  intro s hs
  unfold setupStmts at hs
  rcases List.mem_append.mp hs with h | h
  · rcases hpl : tc.preSpeedLimit with _ | v <;> rw [hpl] at h
    · simp at h
    · simp at h
      subst h
      rfl
  · rcases hps : tc.preSpeedSet with _ | w <;> rw [hps] at h
    · simp at h
    · simp at h
      subst h
      rfl

theorem genStmts_shape (tc : TestCase) :
    ∃ pre last, genStmts tc = pre ++ [last] ∧ ∀ s ∈ pre, isCall s = true := by
  unfold genStmts mainStmts
  by_cases hprop : tc.category = .propertyBased ∧ tc.inputSequence.isSome
  · refine ⟨setupStmts tc ++ (tc.inputSequence.getD []).map JStmt.callSetSpeedSet,
      JStmt.ifPrint (JCond.speedSetEqUnboxed (tc.expectedValue.getD 0)) (passLine tc),
      by simp [hprop], ?_⟩
    intro s hs
    rcases List.mem_append.mp hs with h | h
    · exact setupStmts_calls tc s h
    · rcases List.mem_map.mp h with ⟨v, _, rfl⟩
      rfl
  · by_cases hexc : tc.expectedBehavior = .exception
    · by_cases hid : (pyStarts tc.id "R1" || pyStarts tc.id "R2") = true
      · exact ⟨setupStmts tc,
          JStmt.ifPrint
            (if pyHasSub tc.id "R1" then JCond.speedSetIsNull else JCond.speedLimitIsNull)
            (passLine tc),
          by simp [hprop, hexc, hid], setupStmts_calls tc⟩
      · refine ⟨setupStmts tc ++ [JStmt.callSetSpeedSet (tc.inputSpeedSet.getD 0)],
          JStmt.printLine ("FAIL:" ++ tc.requirement ++ ":" ++ tc.id ++ ":NO_EXCEPTION"),
          by simp [hprop, hexc, hid], ?_⟩
        intro s hs
        rcases List.mem_append.mp hs with h | h
        · exact setupStmts_calls tc s h
        · simp at h
          simp [h, isCall]
    · by_cases hid : (pyStarts tc.id "R1" || pyStarts tc.id "R2") = true
      · exact ⟨setupStmts tc,
          JStmt.ifPrint
            (if pyHasSub tc.id "R1" then JCond.speedSetIsNull else JCond.speedLimitIsNull)
            (passLine tc),
          by simp [hprop, hexc, hid], setupStmts_calls tc⟩
      · refine ⟨setupStmts tc ++ [JStmt.callSetSpeedSet (tc.inputSpeedSet.getD 0)],
          JStmt.ifPrint (JCond.speedSetEqGuarded (tc.expectedValue.getD 0)) (passLine tc),
          by simp [hprop, hexc, hid], ?_⟩
        intro s hs
        rcases List.mem_append.mp hs with h | h
        · exact setupStmts_calls tc s h
        · simp at h
          simp [h, isCall]

theorem runStmts_single (sub : Subject) (st : CCState) (s : JStmt) :
    runStmts sub st [s] = execStmt sub st s := by
  unfold runStmts
  rcases h : execStmt sub st s with ⟨ls, st2 | n⟩ <;> simp [h, runStmts]

theorem execStmt_lines_small (sub : Subject) (st : CCState) (s : JStmt) :
    (execStmt sub st s).1 = [] ∨ ∃ l, (execStmt sub st s).1 = [l] := by
  cases s with
  | callSetSpeedLimit v =>
    simp only [execStmt]
    rcases h : sub.setLimit st v with st2 | m <;> simp [h]
  | callSetSpeedSet v =>
    simp only [execStmt]
    rcases h : sub.setSet st v with st2 | m <;> simp [h]
  | printLine l => exact Or.inr ⟨l, rfl⟩
  | ifPrint c l =>
    simp only [execStmt]
    rcases h : evalCond st c with b | m
    · cases b <;> simp [h]
    · simp [h]

theorem execStmt_thrown_no_lines (sub : Subject) (st : CCState) (s : JStmt)
    (ls : List String) (n : String) (h : execStmt sub st s = (ls, Sum.inr n)) :
    ls = [] := by
  cases s with
  | callSetSpeedLimit v =>
    simp only [execStmt] at h
    rcases hsl : sub.setLimit st v with st2 | m <;> rw [hsl] at h <;> simp_all
  | callSetSpeedSet v =>
    simp only [execStmt] at h
    rcases hsl : sub.setSet st v with st2 | m <;> rw [hsl] at h <;> simp_all
  | printLine l => simp [execStmt] at h
  | ifPrint c l =>
    simp only [execStmt] at h
    rcases hec : evalCond st c with b | m <;> rw [hec] at h
    · cases b <;> simp_all
    · simp_all

theorem runStmts_calls_result (sub : Subject) (st : CCState) (l : List JStmt)
    (h : ∀ s ∈ l, isCall s = true) :
    (∃ st2, runStmts sub st l = ([], Sum.inl st2)) ∨
      (∃ n, runStmts sub st l = ([], Sum.inr n)) := by
  have hl := runStmts_calls_no_lines sub st l h
  rcases h1 : runStmts sub st l with ⟨ls, st2 | n⟩ <;> rw [h1] at hl <;> simp at hl <;>
    subst hl
  · exact Or.inl ⟨st2, rfl⟩
  · exact Or.inr ⟨n, rfl⟩

theorem harnessLines_cases (sub : Subject) (tc : TestCase) (pre : List JStmt)
    (last : JStmt) (hg : genStmts tc = pre ++ [last])
    (hc : ∀ s ∈ pre, isCall s = true) :
    harnessLines sub tc = [] ∨ ∃ l, harnessLines sub tc = [l] := by
  unfold harnessLines
  rw [hg, runStmts_append sub sub.initState pre [last]]
  rcases runStmts_calls_result sub sub.initState pre hc with ⟨st2, h1⟩ | ⟨n1, h1⟩ <;>
    rw [h1] <;> dsimp only
  · rw [runStmts_single sub st2 last]
    rcases h2 : execStmt sub st2 last with ⟨ls2, st3 | n2⟩ <;> dsimp only
    · have hsmall := execStmt_lines_small sub st2 last
      rw [h2] at hsmall
      rcases hsmall with hs | ⟨l, hs⟩ <;> simp at hs <;> simp [hs]
    · have hnil : ls2 = [] := execStmt_thrown_no_lines sub st2 last ls2 n2 h2
      subst hnil
      simp
  · simp

theorem mainStmts_exception (tc : TestCase)
    (hprop : ¬(tc.category = .propertyBased ∧ tc.inputSequence.isSome = true))
    (hexc : tc.expectedBehavior = .exception)
    (hid : (pyStarts tc.id "R1" || pyStarts tc.id "R2") = false) :
    genStmts tc =
      (setupStmts tc ++ [JStmt.callSetSpeedSet (tc.inputSpeedSet.getD 0)])
        ++ [JStmt.printLine ("FAIL:" ++ tc.requirement ++ ":" ++ tc.id ++ ":NO_EXCEPTION")] := by
  unfold genStmts mainStmts
  simp [hprop, hexc, hid]

theorem harnessLines_exc_one (sub : Subject) (tc : TestCase) (pre : List JStmt)
    (fl : String) (hg : genStmts tc = pre ++ [JStmt.printLine fl])
    (hc : ∀ s ∈ pre, isCall s = true) : (harnessLines sub tc).length = 1 := by
  unfold harnessLines
  rw [hg, runStmts_append sub sub.initState pre [JStmt.printLine fl]]
  rcases runStmts_calls_result sub sub.initState pre hc with ⟨st2, h1⟩ | ⟨n1, h1⟩ <;>
    rw [h1] <;> dsimp only
  · rw [runStmts_single sub st2 (JStmt.printLine fl)]
    simp [execStmt]
  · simp

theorem testCases_exception_ids : ∀ tc ∈ testCases, tc.expectedBehavior = .exception →
    ((pyStarts tc.id "R1" || pyStarts tc.id "R2") = false ∧
      ¬(tc.category = .propertyBased ∧ tc.inputSequence.isSome = true)) := by
  decide

/-- C1 (amended): every generated test case, run against any subject
behavior, prints at most one result line, and exception-expecting test cases
print exactly one; a success-expecting test case whose observable-state check
fails on normal return prints no line at all. -/
theorem c1_harness_line_discipline :
    ∀ tc ∈ testCases, ∀ sub : Subject,
      (harnessLines sub tc).length ≤ 1 ∧
        (tc.expectedBehavior = .exception → (harnessLines sub tc).length = 1) := by
  intro tc htc sub
  constructor
  · obtain ⟨pre, last, hg, hc⟩ := genStmts_shape tc
    rcases harnessLines_cases sub tc pre last hg hc with h | ⟨l, h⟩ <;> simp [h]
  · intro hexc
    obtain ⟨hid, hprop⟩ := testCases_exception_ids tc htc hexc
    refine harnessLines_exc_one sub tc _ _ (mainStmts_exception tc hprop hexc hid) ?_
    intro s hs
    rcases List.mem_append.mp hs with h | h
    · exact setupStmts_calls tc s h
    · simp at h
      simp [h, isCall]

/-- C1 witness: the line-count discipline instantiated on the zero-boundary
R4 test case and a concrete subject. -/
theorem c1_harness_line_discipline_witness :
    (harnessLines
        { initState := (some 0, none)
        , setLimit := fun st v => CallRes.ok (st.1, some v)
        , setSet := fun st v => CallRes.ok (some v, st.2) }
        (r4Case 0)).length ≤ 1 ∧
      ((r4Case 0).expectedBehavior = .exception →
        (harnessLines
            { initState := (some 0, none)
            , setLimit := fun st v => CallRes.ok (st.1, some v)
            , setSet := fun st v => CallRes.ok (some v, st.2) }
            (r4Case 0)).length = 1) :=
  c1_harness_line_discipline (r4Case 0) (by decide)
    { initState := (some 0, none)
    , setLimit := fun st v => CallRes.ok (st.1, some v)
    , setSet := fun st v => CallRes.ok (some v, st.2) }

/-- A subject whose constructor leaves `speedSet` non-null and whose
mutators simply store their argument. -/
def subjNonNullInit : Subject :=
  { initState := (some 0, none)
  , setLimit := fun st v => CallRes.ok (st.1, some v)
  , setSet := fun st v => CallRes.ok (some v, st.2) }

/-- C1 counterexample: the generated R1 initialization test case, run against
a subject whose `speedSet` starts non-null, returns normally with the
expected-state check false and prints no result line at all — not one line,
and no FAIL line. -/
theorem c1_counterexample_no_line :
    tcR1Init ∈ testCases ∧ tcR1Init.expectedBehavior = .success ∧
      harnessLines subjNonNullInit tcR1Init = [] := by
  refine ⟨by decide, rfl, ?_⟩
  rfl

/-! ## Result parsing (`run_tests`, lines 474-493) -/

/-- One parsed result record (`status`, `test_id`, `reason`). -/
structure TRec where
  status : String
  testId : String
  reason : String
deriving DecidableEq, Repr

/-- The six requirement keys of `results_by_requirement`. -/
def activeReqs : List String := ["R1", "R2", "R3", "R4", "R5", "R6"]

/-- Parse one output line exactly as the loop body of `run_tests` does: lines
starting with `PASS:` or `FAIL:` are split on `:` into status, requirement,
optional test id and optional reason; every other line yields nothing. -/
def parseLine (line : String) : Option (String × TRec) :=
  if pyStarts line "PASS:" || pyStarts line "FAIL:" then
    let parts := pySplit ':' line
    some (parts.getD 1 "",
      { status := parts.getD 0 ""
      , testId := if parts.length > 2 then parts.getD 2 "" else ""
      , reason := if parts.length > 3 then String.intercalate ":" (parts.drop 3) else "" })
  else
    none

/-- All `(requirement, record)` pairs appended into `results_by_requirement`:
a parsed line is kept only when its requirement field is one of the six
dictionary keys. -/
def collectResults (lines : List String) : List (String × TRec) :=
  lines.filterMap fun l =>
    match parseLine l with
    | some (req, tr) => if req ∈ activeReqs then some (req, tr) else none
    | none => none

/-- The record list of `results_by_requirement[req]` after the parsing loop. -/
def resultsFor (req : String) (lines : List String) : List TRec :=
  ((collectResults lines).filter fun p => p.1 = req).map Prod.snd

/-- Parsing of the captured stdout text: Python `output.split('\n')`
followed by the line loop. -/
def parseOutput (output : String) (req : String) : List TRec :=
  resultsFor req (pySplit '\n' output)

/-- The record built for a counted line (second component of `parseLine`). -/
def lineRec (l : String) : TRec :=
  { status := (pySplit ':' l).getD 0 ""
  , testId := if (pySplit ':' l).length > 2 then (pySplit ':' l).getD 2 "" else ""
  , reason :=
      if (pySplit ':' l).length > 3 then String.intercalate ":" ((pySplit ':' l).drop 3)
      else "" }

/-- C2 (amended): the parser counts a stdout line for requirement `req`
exactly when the line starts with `PASS:` or `FAIL:` and its second
colon-field equals `req` — independently of any `TESTING_START` or
`TESTING_END` sentinel markers around it — and it keeps one record per
occurrence, so duplicate `PASS` lines are counted separately and do change
the per-requirement pass count. -/
theorem c2_parser_characterization :
    ∀ (lines : List String) (req : String), req ∈ activeReqs →
      resultsFor req lines =
        (lines.filter fun l =>
            (pyStarts l "PASS:" || pyStarts l "FAIL:")
              && ((pySplit ':' l).getD 1 "" = req)).map lineRec := by
  intro lines req hreq
  induction lines with
  | nil => rfl
  | cons l rest ih =>
    have hstep : resultsFor req (l :: rest) =
        (match parseLine l with
         | some (p, tr) =>
           if p = req ∧ p ∈ activeReqs then tr :: resultsFor req rest
           else resultsFor req rest
         | none => resultsFor req rest) := by
      unfold resultsFor collectResults
      rcases hpl : parseLine l with _ | ⟨p, tr⟩
      · simp [List.filterMap_cons, hpl]
      · simp only [List.filterMap_cons, hpl]
        by_cases hm : p ∈ activeReqs
        · by_cases hpr : p = req
          · subst hpr
            simp [hm, List.filter_cons]
          · simp [hm, hpr, List.filter_cons]
        · simp [hm]
    rw [hstep]
    by_cases hp : (pyStarts l "PASS:" || pyStarts l "FAIL:") = true
    · have hpl : parseLine l = some ((pySplit ':' l).getD 1 "", lineRec l) := by
        simp [parseLine, lineRec, hp]
      rw [hpl]
      dsimp only
      by_cases hr : (pySplit ':' l).getD 1 "" = req
      · have hm : (pySplit ':' l).getD 1 "" ∈ activeReqs := by rw [hr]; exact hreq
        have hcond : ((pyStarts l "PASS:" || pyStarts l "FAIL:")
            && decide ((pySplit ':' l).getD 1 "" = req)) = true := by
          rw [hp]
          simp only [Bool.true_and, decide_eq_true_eq]
          exact hr
        have hfc : (List.filter
              (fun l => (pyStarts l "PASS:" || pyStarts l "FAIL:")
                && decide ((pySplit ':' l).getD 1 "" = req)) (l :: rest)) =
            l :: List.filter
              (fun l => (pyStarts l "PASS:" || pyStarts l "FAIL:")
                && decide ((pySplit ':' l).getD 1 "" = req)) rest :=
          List.filter_cons_of_pos hcond
        rw [hfc, if_pos ⟨hr, hm⟩, List.map_cons, ih]
      · have hcond : ¬ ((pyStarts l "PASS:" || pyStarts l "FAIL:")
            && decide ((pySplit ':' l).getD 1 "" = req)) = true := by
          intro hand
          rw [Bool.and_eq_true] at hand
          exact hr (of_decide_eq_true hand.2)
        have hfc : (List.filter
              (fun l => (pyStarts l "PASS:" || pyStarts l "FAIL:")
                && decide ((pySplit ':' l).getD 1 "" = req)) (l :: rest)) =
            List.filter
              (fun l => (pyStarts l "PASS:" || pyStarts l "FAIL:")
                && decide ((pySplit ':' l).getD 1 "" = req)) rest :=
          List.filter_cons_of_neg hcond
        rw [hfc, if_neg (fun hand => hr hand.1), ih]
    · have hpl : parseLine l = none := by simp [parseLine, hp]
      rw [hpl]
      dsimp only
      have hcond : ¬ ((pyStarts l "PASS:" || pyStarts l "FAIL:")
          && decide ((pySplit ':' l).getD 1 "" = req)) = true := by
        intro hand
        rw [Bool.and_eq_true] at hand
        exact hp hand.1
      have hfc : (List.filter
            (fun l => (pyStarts l "PASS:" || pyStarts l "FAIL:")
              && decide ((pySplit ':' l).getD 1 "" = req)) (l :: rest)) =
          List.filter
            (fun l => (pyStarts l "PASS:" || pyStarts l "FAIL:")
              && decide ((pySplit ':' l).getD 1 "" = req)) rest :=
        List.filter_cons_of_neg hcond
      rw [hfc]
      exact ih

/-- C2 counterexample: a `PASS:R1` line sitting entirely outside the
`TESTING_START`/`TESTING_END` markers is still counted, and a duplicated
`PASS:R1` line is counted twice, doubling the per-requirement record count
instead of deduplicating. -/
theorem c2_counterexample_markers_duplicates :
    (parseOutput "PASS:R1:A\nTESTING_START\nTESTING_END" "R1").length = 1 ∧
      (parseOutput "TESTING_START\nPASS:R1:A\nPASS:R1:A\nTESTING_END" "R1").length = 2 := by
  constructor <;> rfl

/-! ## Result analysis (`analyze_results`) -/

theorem pyRound2_intMul (n : ℤ) (q : ℚ) (h : q * 100 = (n : ℚ)) :
    pyRound2 q = (n : ℚ) / 100 := by
  unfold pyRound2 bankerRound
  rw [h, Int.floor_intCast]
  norm_num

/-- Number of records with status `PASS` (`sum(1 for r ... == 'PASS')`). -/
def passedCount (l : List TRec) : Nat :=
  (l.filter fun r => r.status = "PASS").length

/-- The analysis record built per requirement. -/
structure ReqAnalysis where
  satisfied : Bool
  totalTests : Nat
  passedTests : Nat
  failedTests : Nat
  satisfactionRate : ℚ
deriving Repr

/-- Per-requirement body of `analyze_results`: pass counts, satisfaction
rate `passed / total * 100` (0 when no tests), the strict criterion
`satisfaction_rate >= 80`, and the reported rate rounded to two digits. -/
def analyzeReq (l : List TRec) : ReqAnalysis :=
  let total := l.length
  let passed := passedCount l
  let rate : ℚ := if total > 0 then (passed : ℚ) / (total : ℚ) * 100 else 0
  { satisfied := decide (80 ≤ rate)
  , totalTests := total
  , passedTests := passed
  , failedTests := total - passed
  , satisfactionRate := pyRound2 rate }

theorem analyzeReq_satisfied_iff (res : List TRec) :
    (analyzeReq res).satisfied = true ↔
      0 < res.length ∧ 4 * res.length ≤ 5 * passedCount res := by
  simp only [analyzeReq, decide_eq_true_eq]
  by_cases h : res.length = 0
  · rw [h]
    norm_num
  · have hpos : 0 < res.length := Nat.pos_of_ne_zero h
    have hq : (0 : ℚ) < (res.length : ℚ) := by exact_mod_cast hpos
    rw [if_pos (by exact_mod_cast hpos)]
    rw [div_mul_eq_mul_div, le_div_iff hq]
    constructor
    · intro hle
      refine ⟨hpos, ?_⟩
      have h100 : 80 * res.length ≤ passedCount res * 100 := by exact_mod_cast hle
      omega
    · rintro ⟨-, hle⟩
      have h100 : 80 * res.length ≤ passedCount res * 100 := by omega
      exact_mod_cast h100

theorem analyzeReq_rate_zero (res : List TRec) (h : res.length = 0) :
    (analyzeReq res).satisfactionRate = 0 := by
  simp only [analyzeReq, h]
  norm_num
  rw [pyRound2_intMul 0 0 (by norm_num)]
  norm_num

/-- C3: for every requirement and every captured output, `analyze_results`
marks the requirement satisfied exactly when result lines exist for it and
the pass rate `passed / total * 100` reaches the 80 percent threshold
(equivalently `4 * total ≤ 5 * passed`), and reports a satisfaction rate of
0 when no result lines exist. -/
theorem c3_satisfaction_threshold :
    ∀ (lines : List String) (req : String), req ∈ activeReqs →
      ((analyzeReq (resultsFor req lines)).satisfied = true ↔
        0 < (resultsFor req lines).length ∧
          4 * (resultsFor req lines).length ≤ 5 * passedCount (resultsFor req lines))
      ∧ ((resultsFor req lines).length = 0 →
          (analyzeReq (resultsFor req lines)).satisfactionRate = 0) :=
  fun lines req _ =>
    ⟨analyzeReq_satisfied_iff (resultsFor req lines),
     analyzeReq_rate_zero (resultsFor req lines)⟩

/-- C3 witness: the threshold criterion instantiated on a one-line output for
R1. -/
theorem c3_satisfaction_threshold_witness :
    ((analyzeReq (resultsFor "R1" ["PASS:R1:A"])).satisfied = true ↔
      0 < (resultsFor "R1" ["PASS:R1:A"]).length ∧
        4 * (resultsFor "R1" ["PASS:R1:A"]).length ≤
          5 * passedCount (resultsFor "R1" ["PASS:R1:A"]))
    ∧ ((resultsFor "R1" ["PASS:R1:A"]).length = 0 →
        (analyzeReq (resultsFor "R1" ["PASS:R1:A"])).satisfactionRate = 0) :=
  c3_satisfaction_threshold ["PASS:R1:A"] "R1" (by decide)

/-! ## Grading policy of `grade_implementation` (lines 577-601) -/

/-- Requirement weights: `{f'R{i}': 1.67 for i in range(1, 6)}` followed by
`weights['R6'] = 1.65` (chosen so the total is 10.0). -/
def rigorousWeights : List (String × ℚ) :=
  ((List.range' 1 5).map fun i => (s!"R{i}", (1.67 : ℚ))) ++ [("R6", (1.65 : ℚ))]

/-- Weight lookup `weights[req]`; every requirement the grader scores is a
key, so the default 0 of the total map is never consulted on those. -/
def weightOf (req : String) : ℚ :=
  (rigorousWeights.lookup req).getD 0

/-- Grade of a satisfied-requirement list: sum of weights, capped at 10.0,
then rounded to two digits for the report. -/
def rigorousGrade (satisfied : List String) : ℚ :=
  pyRound2 (min ((satisfied.map weightOf).sum) 10)

/-- C6: when all six requirements are satisfied the computed grade is exactly
the 10.0 ceiling (the weights 5 × 1.67 + 1.65 sum exactly to 10, so the cap
does not reduce it), and when none are satisfied the grade is 0. -/
theorem c6_grade_round_trip :
    rigorousGrade activeReqs = 10 ∧ rigorousGrade [] = 0 ∧
      (rigorousWeights.map Prod.snd).sum = 10 := by
  have hmap : activeReqs.map weightOf = [(1.67 : ℚ), 1.67, 1.67, 1.67, 1.67, 1.65] := by
    rfl
  have hsum : ([(1.67 : ℚ), 1.67, 1.67, 1.67, 1.67, 1.65]).sum = 10 := by
    norm_num [List.sum_cons, List.sum_nil]
  refine ⟨?_, ?_, ?_⟩
  · unfold rigorousGrade
    rw [hmap, hsum, min_self, pyRound2_intMul 1000 10 (by norm_num)]
    norm_num
  · unfold rigorousGrade
    rw [show (([] : List String).map weightOf).sum = 0 from rfl]
    rw [show min (0 : ℚ) 10 = 0 by norm_num]
    rw [pyRound2_intMul 0 0 (by norm_num)]
    norm_num
  · rw [show rigorousWeights.map Prod.snd = [(1.67 : ℚ), 1.67, 1.67, 1.67, 1.67, 1.65]
      from rfl]
    exact hsum

/-! ## Grading pipeline (`grade_implementation`, `compile_code`,
`_error_result`, `cleanup`)

The pipeline invokes external steps (directory setup, `javac`, `java`).
Their observable outcomes are collected in an environment record; the
control flow of `grade_implementation` is translated over it, returning the
result dictionary together with whether `self.cleanup()` was invoked before
returning. -/

/-- Outcomes of the external steps of one grading run. -/
structure StepEnv where
  /-- `setup_environment` first component. -/
  setupOk : Bool
  /-- `setup_environment` message. -/
  setupMsg : String
  /-- whether `package_dir.glob('*.java')` found any file. -/
  javaFilesFound : Bool
  /-- `javac` exit code. -/
  compileExit : Int
  /-- `javac` captured stderr. -/
  compileStderr : String
  /-- `run_tests` first component. -/
  runOk : Bool
  /-- `run_tests` error message when it fails. -/
  runErr : String
  /-- captured stdout of the harness run. -/
  runOutput : String

/-- The fields of the result dictionary the claims are about. -/
structure GradeOutcome where
  success : Bool
  error : String
  requirementsSatisfied : List String
  requirementsMissing : List String
  grade : ℚ
deriving Repr

/-- `_error_result`: failure dictionary with all six requirements missing and
grade 0.0. -/
def errorResult (msg : String) : GradeOutcome :=
  { success := false
  , error := msg
  , requirementsSatisfied := []
  , requirementsMissing := activeReqs
  , grade := 0 }

/-- `compile_code`: no Java files is a failure; a non-zero `javac` exit code
yields `Compilation failed:\n` followed by the captured stderr verbatim. -/
def compileCode (env : StepEnv) : Bool × String :=
  if env.javaFilesFound = false then (false, "No Java files found")
  else if env.compileExit ≠ 0 then
    (false, "Compilation failed:\n" ++ env.compileStderr)
  else (true, "Compilation successful")

/-- Requirements judged satisfied from the harness output (lines 513-525 and
577-579). -/
def satisfiedReqs (output : String) : List String :=
  activeReqs.filter fun req => (analyzeReq (parseOutput output req)).satisfied

/-- `grade_implementation` control flow: setup, compile, run, analyze, grade.
The second component records whether `cleanup` ran before the return: the
setup-failure branch returns directly, the other branches call `cleanup`
first. -/
def gradeImplementation (env : StepEnv) : GradeOutcome × Bool :=
  if env.setupOk = false then (errorResult env.setupMsg, false)
  else
    match compileCode env with
    | (false, cmsg) => (errorResult ("Compilation failed: " ++ cmsg), true)
    | (true, _) =>
      if env.runOk = false then (errorResult env.runErr, true)
      else
        let sat := satisfiedReqs env.runOutput
        ({ success := true
         , error := ""
         , requirementsSatisfied := sat
         , requirementsMissing := activeReqs.filter fun r => ¬ r ∈ sat
         , grade := rigorousGrade sat }, true)

/-- C7: whenever the external compiler exits non-zero, grading returns a
structured error result: success is false, all six requirements are listed
missing, the grade is 0.0, and the error string contains the captured
compiler diagnostic verbatim as a suffix. -/
theorem c7_build_failure_structured :
    ∀ env : StepEnv, env.setupOk = true → env.javaFilesFound = true →
      env.compileExit ≠ 0 →
      (gradeImplementation env).1.success = false ∧
        (gradeImplementation env).1.requirementsMissing = activeReqs ∧
        (gradeImplementation env).1.grade = 0 ∧
        ∃ p, (gradeImplementation env).1.error = p ++ env.compileStderr := by
  intro env hsetup hfiles hexit
  have hcomp : compileCode env = (false, "Compilation failed:\n" ++ env.compileStderr) := by
    unfold compileCode
    rw [hfiles]
    simp [hexit]
  unfold gradeImplementation
  rw [hsetup, hcomp]
  refine ⟨by simp [errorResult], by simp [errorResult], by simp [errorResult],
    "Compilation failed: " ++ "Compilation failed:\n", ?_⟩
  simp only [errorResult, Bool.true_eq_false, if_false]
  rw [String.append_assoc]

/-- C7 witness: the build-failure result on a concrete environment. -/
theorem c7_build_failure_structured_witness :
    (gradeImplementation
        { setupOk := true, setupMsg := "", javaFilesFound := true
        , compileExit := 1, compileStderr := "error: ';' expected"
        , runOk := true, runErr := "", runOutput := "" }).1.success = false ∧
      (gradeImplementation
          { setupOk := true, setupMsg := "", javaFilesFound := true
          , compileExit := 1, compileStderr := "error: ';' expected"
          , runOk := true, runErr := "", runOutput := "" }).1.requirementsMissing
        = activeReqs ∧
      (gradeImplementation
          { setupOk := true, setupMsg := "", javaFilesFound := true
          , compileExit := 1, compileStderr := "error: ';' expected"
          , runOk := true, runErr := "", runOutput := "" }).1.grade = 0 ∧
      ∃ p, (gradeImplementation
          { setupOk := true, setupMsg := "", javaFilesFound := true
          , compileExit := 1, compileStderr := "error: ';' expected"
          , runOk := true, runErr := "", runOutput := "" }).1.error
        = p ++ "error: ';' expected" :=
  c7_build_failure_structured
    { setupOk := true, setupMsg := "", javaFilesFound := true
    , compileExit := 1, compileStderr := "error: ';' expected"
    , runOk := true, runErr := "", runOutput := "" }
    rfl rfl (by decide)

/-- C8 (amended): the cleanup step runs before the return in exactly the
terminal states reached after environment setup succeeds — build failure,
run failure and successful completion — and does not run when environment
setup itself fails. -/
theorem c8_cleanup_iff_setup_succeeded :
    ∀ env : StepEnv, (gradeImplementation env).2 = env.setupOk := by
  intro env
  unfold gradeImplementation
  rcases hs : env.setupOk with _ | _
  · simp
  · simp only [Bool.true_eq_false, if_false]
    rcases hc : compileCode env with ⟨ok, cmsg⟩
    rcases ok with _ | _
    · rfl
    · rcases hr : env.runOk with _ | _ <;> simp

/-- C8 counterexample: when environment setup fails, the run reaches its
terminal error state and returns, but the cleanup step is never invoked — the
setup-failure branch of `grade_implementation` returns before any call to
`cleanup`. -/
theorem c8_counterexample_setup_failure_skips_cleanup :
    (gradeImplementation
        { setupOk := false, setupMsg := "Setup error: permission denied"
        , javaFilesFound := true, compileExit := 0, compileStderr := ""
        , runOk := true, runErr := "", runOutput := "" }).2 = false ∧
      (gradeImplementation
          { setupOk := false, setupMsg := "Setup error: permission denied"
          , javaFilesFound := true, compileExit := 0, compileStderr := ""
          , runOk := true, runErr := "", runOutput := "" }).1.success = false := by
  constructor <;> rfl

/-! ## Test-quality logic verification (`test_analyzer.py`)

`extract_method_calls_with_values` reads literal calls out of a test method
body with a regex and `verify_r5_logic` / `verify_r6_logic` reason about the
extracted values together with substring checks on the body.  A test method
is modelled by its body text, the extracted call list, and the result of the
limit-comment regex (the one non-substring text check). -/

/-- A parsed student test method. -/
structure TMethod where
  /-- the raw method body text. -/
  body : String
  /-- result of `extract_method_calls_with_values`: (method name, literal
  argument) in occurrence order. -/
  calls : List (String × Int)
  /-- result of the case-insensitive regex search for a `//` comment
  mentioning `limit`, `limite` or `speedLimit`. -/
  hasLimitComment : Bool

/-- `[c['value'] for c in calls if c['method'] == 'setSpeedLimit']`. -/
def limitValues (m : TMethod) : List Int :=
  (m.calls.filter fun c => c.1 = "setSpeedLimit").map Prod.snd

/-- `[c['value'] for c in calls if c['method'] == 'setSpeedSet']`. -/
def setValues (m : TMethod) : List Int :=
  (m.calls.filter fun c => c.1 = "setSpeedSet").map Prod.snd

/-- `verify_r5_logic` verdict: requires both calls present, an explicit
limit comment, an acceptance assertion, and some extracted pair with
`speed_set <= limit`; a method whose pairs all exceed the limit falls
through to the not-verified `this tests R6, not R5` outcome. -/
def verifyR5 (m : TMethod) : Bool :=
  if (limitValues m).isEmpty || (setValues m).isEmpty then false
  else if m.hasLimitComment = false then false
  else if ¬ (pyHasSub m.body "assertEquals" || pyHasSub m.body "assertTrue"
      || pyHasSub m.body "getSpeedSet") then false
  else (limitValues m).any fun lim => (setValues m).any fun s => s ≤ lim

/-- `verify_r6_logic` verdict: requires an `assertThrows` naming the
`SpeedSetAboveSpeedLimit` kind, both calls present, and some extracted pair
with `speed_set > limit`. -/
def verifyR6 (m : TMethod) : Bool :=
  if ¬ (pyHasSub m.body "assertThrows" && pyHasSub m.body "SpeedSetAboveSpeedLimit")
    then false
  else if (limitValues m).isEmpty || (setValues m).isEmpty then false
  else (limitValues m).any fun lim => (setValues m).any fun s => lim < s

/-- C9: a test method whose extracted literal calls are `setSpeedLimit(L)`
and `setSpeedSet(S)` with `S > L` and which asserts the limit-exceeded
exception kind is classified as evidence for R6 and never for R5:
`verify_r6_logic` verifies it and `verify_r5_logic` rejects it. -/
theorem c9_violation_is_r6_not_r5 :
    ∀ (m : TMethod) (lim s : Int),
      limitValues m = [lim] → setValues m = [s] → lim < s →
      pyHasSub m.body "assertThrows" = true →
      pyHasSub m.body "SpeedSetAboveSpeedLimit" = true →
      verifyR6 m = true ∧ verifyR5 m = false := by
  intro m lim s hl hs hlt ht hk
  constructor
  · unfold verifyR6
    rw [hl, hs, ht, hk]
    simp [hlt]
  · unfold verifyR5
    rw [hl, hs]
    rcases hc : m.hasLimitComment with _ | _
    · simp
    · rcases ha : (pyHasSub m.body "assertEquals" || pyHasSub m.body "assertTrue"
          || pyHasSub m.body "getSpeedSet") with _ | _
      · simp [ha]
      · simp [ha, not_le.mpr hlt]

/-- C9 witness: the classification on a concrete method asserting
`setSpeedLimit(100); setSpeedSet(150);` with a `SpeedSetAboveSpeedLimit`
`assertThrows`. -/
theorem c9_violation_is_r6_not_r5_witness :
    verifyR6
        { body := "cc.setSpeedLimit(100); assertThrows(SpeedSetAboveSpeedLimitException.class, () -> cc.setSpeedSet(150)); // limit"
        , calls := [("setSpeedLimit", 100), ("setSpeedSet", 150)]
        , hasLimitComment := true } = true ∧
      verifyR5
        { body := "cc.setSpeedLimit(100); assertThrows(SpeedSetAboveSpeedLimitException.class, () -> cc.setSpeedSet(150)); // limit"
        , calls := [("setSpeedLimit", 100), ("setSpeedSet", 150)]
        , hasLimitComment := true } = false :=
  c9_violation_is_r6_not_r5
    { body := "cc.setSpeedLimit(100); assertThrows(SpeedSetAboveSpeedLimitException.class, () -> cc.setSpeedSet(150)); // limit"
    , calls := [("setSpeedLimit", 100), ("setSpeedSet", 150)]
    , hasLimitComment := true }
    100 150 (by decide) (by decide) (by decide) (by decide) (by decide)

/-! ## Orchestrator grading (`src/grader/main.py`) -/

theorem le_bankerRound (x : ℚ) : ⌊x⌋ ≤ bankerRound x := by
  unfold bankerRound
  split_ifs <;> omega

theorem bankerRound_le (x : ℚ) : bankerRound x ≤ ⌊x⌋ + 1 := by
  unfold bankerRound
  split_ifs <;> omega

theorem bankerRound_mono {x y : ℚ} (h : x ≤ y) : bankerRound x ≤ bankerRound y := by
  rcases lt_or_eq_of_le (Int.floor_mono h) with hlt | heq
  · have h1 := bankerRound_le x
    have h2 := le_bankerRound y
    omega
  · unfold bankerRound
    rw [← heq]
    have hxy : x - (⌊x⌋ : ℚ) ≤ y - (⌊x⌋ : ℚ) := by linarith
    split_ifs <;> first | omega | linarith

theorem pyRound2_mono {a b : ℚ} (h : a ≤ b) : pyRound2 a ≤ pyRound2 b := by
  unfold pyRound2
  have hm : bankerRound (a * 100) ≤ bankerRound (b * 100) :=
    bankerRound_mono (by linarith)
  have hc : ((bankerRound (a * 100) : ℤ) : ℚ) ≤ ((bankerRound (b * 100) : ℤ) : ℚ) := by
    exact_mod_cast hm
  linarith

/-- The analysis dictionary fields `calculate_grade` reads. -/
structure GAnalysis where
  success : Bool
  /-- `requirements_covered` (or `requirements_satisfied`). -/
  requirements : List String
  /-- `total_requirements`. -/
  totalRequirements : Nat

/-- `get_default_config` requirement weights:
`{f'R{i}': 5.26 for i in range(1, 20)}` — nineteen requirements. -/
def defaultWeights : List (String × ℚ) :=
  (List.range' 1 19).map fun i => (s!"R{i}", (5.26 : ℚ))

/-- `get_default_config` grade ceiling. -/
def defaultMaxGrade : ℚ := 10

/-- The default configuration has no `bonus` section, so
`config['grading'].get('bonus', {}).get('all_requirements_covered', 0)`
is 0. -/
def defaultBonus : ℚ := 0

/-- `calculate_grade`: earned weight over total weight times the ceiling,
with the full-coverage bonus branch taken when the covered count equals
`total_requirements`, rounded to two digits. -/
def calculateGrade (weights : List (String × ℚ)) (maxGrade bonus : ℚ)
    (analysis : GAnalysis) : ℚ :=
  if analysis.success = false then 0
  else
    let total := (weights.map Prod.snd).sum
    let earned := (analysis.requirements.map fun r => (weights.lookup r).getD 0).sum
    let grade := earned / total * maxGrade
    let graded :=
      if analysis.requirements.length = analysis.totalRequirements then
        min (grade + bonus) maxGrade
      else grade
    pyRound2 graded

theorem sum_map_const_rat (l : List String) :
    (l.map fun _ => (5.26 : ℚ)).sum = l.length * 5.26 := by
  induction l with
  | nil => simp
  | cons a t ih =>
    simp [ih]
    ring

/-- C10: under the default configuration the earned weight is divided by the
summed weight of all nineteen requirements, so every analysis whose covered
set is a (duplicate-free) subset of the six active requirements R1..R6 grades
at most 3.16 out of the 10.0 ceiling, whether or not the full-coverage bonus
branch is taken. -/
theorem c10_default_config_grade_cap :
    ∀ (reqs : List String) (tot : Nat), reqs.Nodup → (∀ r ∈ reqs, r ∈ activeReqs) →
      calculateGrade defaultWeights defaultMaxGrade defaultBonus
        { success := true, requirements := reqs, totalRequirements := tot } ≤ 3.16 := by
  intro reqs tot hnd hsub
  have hw : ∀ r ∈ reqs, ((defaultWeights.lookup r).getD 0) = (5.26 : ℚ) := by
    intro r hr
    have h6 := hsub r hr
    simp only [activeReqs, List.mem_cons, List.not_mem_nil, or_false] at h6
    rcases h6 with rfl | rfl | rfl | rfl | rfl | rfl <;> rfl
  have hmap : (reqs.map fun r => (defaultWeights.lookup r).getD 0) =
      reqs.map fun _ => (5.26 : ℚ) := List.map_congr_left hw
  have hlen : reqs.length ≤ 6 := by
    have hsp : List.Subperm reqs activeReqs := List.Nodup.subperm hnd hsub
    simpa [activeReqs] using hsp.length_le
  have htot : (defaultWeights.map Prod.snd).sum = 99.94 := by
    rw [show defaultWeights.map Prod.snd = List.replicate 19 (5.26 : ℚ) from rfl]
    rw [List.sum_replicate]
    norm_num
  unfold calculateGrade
  simp only [Bool.true_eq_false, if_false, hmap, htot, sum_map_const_rat]
  have hk : (reqs.length : ℚ) ≤ 6 := by exact_mod_cast hlen
  have hgr : (reqs.length : ℚ) * 5.26 / 99.94 * 10 ≤ 60 / 19 := by
    rw [div_mul_eq_mul_div, div_le_div_iff (by norm_num) (by norm_num)]
    nlinarith
  have hle : (if reqs.length = tot then
        min ((reqs.length : ℚ) * 5.26 / 99.94 * 10 + defaultBonus) defaultMaxGrade
      else (reqs.length : ℚ) * 5.26 / 99.94 * 10) ≤ 60 / 19 := by
    split_ifs
    · refine le_trans (min_le_left _ _) ?_
      unfold defaultBonus
      linarith
    · exact hgr
  refine le_trans (pyRound2_mono hle) ?_
  have hfloor : ⌊((60 : ℚ) / 19 * 100)⌋ = 315 := by
    rw [show ((60 : ℚ) / 19 * 100) = 6000 / 19 by norm_num, Int.floor_eq_iff]
    constructor <;> norm_num
  unfold pyRound2 bankerRound
  rw [hfloor]
  rw [if_neg (by rw [show ((60 : ℚ) / 19 * 100) = 6000 / 19 by norm_num]; norm_num)]
  rw [if_pos (by rw [show ((60 : ℚ) / 19 * 100) = 6000 / 19 by norm_num]; norm_num)]
  norm_num

/-- C10 witness: the cap instantiated on the full active set R1..R6 with the
bonus branch taken. -/
theorem c10_default_config_grade_cap_witness :
    calculateGrade defaultWeights defaultMaxGrade defaultBonus
      { success := true, requirements := activeReqs, totalRequirements := 6 } ≤ 3.16 :=
  c10_default_config_grade_cap activeReqs 6 (by decide) (fun r hr => hr)

/-- C2 witness: the parser characterization instantiated on a concrete
two-line output for R1. -/
theorem c2_parser_characterization_witness :
    resultsFor "R1" ["PASS:R1:A", "TESTING_END"] =
      ((["PASS:R1:A", "TESTING_END"].filter fun l =>
          (pyStarts l "PASS:" || pyStarts l "FAIL:")
            && ((pySplit ':' l).getD 1 "" = "R1")).map lineRec) :=
  c2_parser_characterization ["PASS:R1:A", "TESTING_END"] "R1" (by decide)
